import Mathlib

/-!
Verification of the synthetic banking-dataset generator `gerar_dados`
(src/app.py, lines 56-184).

The generator draws columns from NumPy's globally seeded pseudo-random
source and then applies deterministic correlation-injection passes and
derived financial fields.  We embed it shallowly:

* every pseudo-random primitive (`np.random.normal`, `exponential`,
  `choice`, `lognormal`, `negative_binomial`, `beta`, `poisson`) becomes a
  field of an abstract `Rng` structure, keyed by the distribution
  parameters appearing at the call site and by the index of the draw
  inside the call's batch.  Table-level theorems are proved for every
  `Rng`, hence in particular for the stream that NumPy's Mersenne twister
  actually produces under seed 42 (exact bit-level reproduction of that
  stream is not portable, as the spec itself notes in its design notes).
* floats are modelled as exact rationals; `.round(k)` is round-half-even
  at `k` decimals, `astype(int)` is truncation toward zero, `np.clip` is
  `min (max x lo) hi` — all matching the NumPy semantics of the source.
* the global NumPy random state is threaded explicitly: `gerar_dados`
  receives the ambient state and immediately replaces it via
  `np_random_seed 42`, exactly as `np.random.seed(42)` does on line 68.
-/

/-- Round-half-even to the nearest integer (the rounding of Python's
`round` and NumPy's `np.round`). -/
def rhe (q : ℚ) : ℤ :=
  if q - ⌊q⌋ < 1/2 then ⌊q⌋
  else if 1/2 < q - ⌊q⌋ then ⌊q⌋ + 1
  else if ⌊q⌋ % 2 = 0 then ⌊q⌋ else ⌊q⌋ + 1

/-- `.round(2)` of the source, exact on rationals. -/
def round2 (q : ℚ) : ℚ := (rhe (q * 100) : ℚ) / 100

/-- `.round(1)` of the source, exact on rationals. -/
def round1 (q : ℚ) : ℚ := (rhe (q * 10) : ℚ) / 10

/-- `astype(int)`: truncation toward zero, as NumPy casts float to int. -/
def truncQ (q : ℚ) : ℤ := if 0 ≤ q then ⌊q⌋ else ⌈q⌉

/-- `np.clip(x, lo, hi)` on rationals. -/
def clipQ (x lo hi : ℚ) : ℚ := min (max x lo) hi

/-- `np.clip(x, lo, hi)` on integers. -/
def clipI (x lo hi : ℤ) : ℤ := min (max x lo) hi

/-- The four customer segments, in the enumeration order
`['Varejo', 'Premium', 'Alta Renda', 'Private']` of the source. -/
inductive Segmento where
  | varejo
  | premium
  | altaRenda
  | priv
deriving DecidableEq, Repr

/-- Position of a segment in the source's enumeration order (the loop
variable `i` of `enumerate([...])` on lines 132, 137 and 159). -/
def segIdx : Segmento → ℕ
  | .varejo => 0
  | .premium => 1
  | .altaRenda => 2
  | .priv => 3

/-- The five service channels of the source
(`'App', 'Internet Banking', 'Agência', 'Central Telefônica',
'Caixa Eletrônico'`). -/
inductive Canal where
  | app
  | internetBanking
  | agencia
  | centralTelefonica
  | caixaEletronico
deriving DecidableEq, Repr

/-- Position of a channel in the "traditionalness" enumeration order of
line 148: `['App', 'Internet Banking', 'Caixa Eletrônico',
'Central Telefônica', 'Agência']`. -/
def canalIdx : Canal → ℕ
  | .app => 0
  | .internetBanking => 1
  | .caixaEletronico => 2
  | .centralTelefonica => 3
  | .agencia => 4

/-- An abstract pseudo-random source: one field per NumPy primitive used
by `gerar_dados`, taking the distribution parameters of the call site and
the index of the draw inside that call's batch.  All call sites of the
source use pairwise distinct parameters, so distinct calls never alias. -/
structure Rng where
  /-- `np.random.normal(mean, std, size)`, draw `i` of the batch. -/
  normal : ℚ → ℚ → ℕ → ℚ
  /-- `np.random.exponential(scale, size)`, draw `i` of the batch. -/
  exponential : ℚ → ℕ → ℚ
  /-- `np.random.choice` over the four segment labels (line 86). -/
  segChoice : ℕ → Segmento
  /-- `np.random.lognormal(mean, sigma, size)`, draw `i` of the batch. -/
  lognormal : ℚ → ℚ → ℕ → ℚ
  /-- `np.random.negative_binomial(n, p, size)`: a natural number. -/
  negativeBinomial : ℕ → ℚ → ℕ → ℕ
  /-- `np.random.choice` over the five channel labels (line 98). -/
  canalChoice : ℕ → Canal
  /-- `np.random.beta(a, b, size)`, draw `i` of the batch. -/
  beta : ℚ → ℚ → ℕ → ℚ
  /-- `np.random.choice([True, False], p=[0.85, 0.15])` (line 105). -/
  boolChoice : ℕ → Bool
  /-- `np.random.poisson(lam, size)`: a natural number. -/
  poisson : ℚ → ℕ → ℕ

/-! ### The columns of the generated table, row `i` (0-based)

Each definition mirrors the source lines cited in its comment. -/

/-- Lines 75: `ids_clientes = np.arange(1, n_linhas + 1)`. -/
def ids_clientes (i : ℕ) : ℤ := (i : ℤ) + 1

/-- Lines 78-79: initial age draw, `astype(int)` then clip to [18, 85].
This column is later overwritten by `idade` (lines 148-151) and never
reaches the returned table. -/
def idades (rng : Rng) (i : ℕ) : ℤ :=
  clipI (truncQ (rng.normal 42 15 i)) 18 85

/-- Lines 82-83: raw balance, exponential(10000) clipped to [0, 500000]. -/
def saldos (rng : Rng) (i : ℕ) : ℚ :=
  clipQ (rng.exponential 10000 i) 0 500000

/-- Lines 86-87: segment draw. -/
def segmentos (rng : Rng) (i : ℕ) : Segmento := rng.segChoice i

/-- Lines 90-91: tenure, lognormal(3.5, 1) `astype(int)` clipped [1,480]. -/
def tempo_cliente (rng : Rng) (i : ℕ) : ℤ :=
  clipI (truncQ (rng.lognormal 3.5 1 i)) 1 480

/-- Lines 94-95: product count, negative_binomial(3, 0.4) + 1, clip [1,8]. -/
def num_produtos0 (rng : Rng) (i : ℕ) : ℤ :=
  clipI ((rng.negativeBinomial 3 0.4 i : ℤ) + 1) 1 8

/-- Lines 98-99: preferred-channel draw. -/
def canais (rng : Rng) (i : ℕ) : Canal := rng.canalChoice i

/-- Line 102: satisfaction, beta(7, 3) scaled by 100. -/
def satisfacao0 (rng : Rng) (i : ℕ) : ℚ := rng.beta 7 3 i * 100

/-- Line 105: active flag. -/
def ativo (rng : Rng) (i : ℕ) : Bool := rng.boolChoice i

/-- Lines 108-109: raw transactions, exponential(2000) clipped [0,50000]. -/
def valor_transacoes0 (rng : Rng) (i : ℕ) : ℚ :=
  clipQ (rng.exponential 2000 i) 0 50000

/-- Lines 112-113: contact frequency, poisson(3) clipped to [0, 30]. -/
def freq_contatos (rng : Rng) (i : ℕ) : ℕ :=
  min (max (rng.poisson 3 i) 0) 30

/-- Line 119: the `saldo_conta` column as stored in the DataFrame,
`saldos.round(2)`. -/
def saldo_df (rng : Rng) (i : ℕ) : ℚ := round2 (saldos rng i)

/-- Line 124: the `satisfacao` column as stored, `satisfacao.round(1)`. -/
def satisfacao_df (rng : Rng) (i : ℕ) : ℚ := round1 (satisfacao0 rng i)

/-- Line 126: the `valor_transacoes_mensais` column as stored,
`valor_transacoes.round(2)`. -/
def valor_df (rng : Rng) (i : ℕ) : ℚ := round2 (valor_transacoes0 rng i)

/-- Lines 132-134, correlation pass 1: balance scaled by
`(i + 1) * 1.5` for the row's segment at enumeration position `i`. -/
def saldo_conta (rng : Rng) (i : ℕ) : ℚ :=
  saldo_df rng i * ((segIdx (segmentos rng i) : ℚ) + 1) * 1.5

/-- Lines 137-140, correlation pass 2: satisfaction scaled by
`1 + i * 0.05` for the row's segment, then re-clipped to [0, 100]. -/
def satisfacao (rng : Rng) (i : ℕ) : ℚ :=
  clipQ (satisfacao_df rng i * (1 + (segIdx (segmentos rng i) : ℚ) * 0.05)) 0 100

/-- Lines 143-145, correlation pass 3: transactions scaled by
`1 + prod * 0.15`; the loop only visits `prod` in 1..8, so a row whose
product count fell outside that range would be left unscaled. -/
def valor_transacoes (rng : Rng) (i : ℕ) : ℚ :=
  if 1 ≤ num_produtos0 rng i ∧ num_produtos0 rng i ≤ 8 then
    valor_df rng i * (1 + (num_produtos0 rng i : ℚ) * 0.15)
  else valor_df rng i

/-- Position of row `i` inside the batch `np.random.normal(..., sum(mask))`
drawn for its channel on line 150: the number of earlier rows with the
same preferred channel. -/
def occAt (rng : Rng) (i : ℕ) : ℕ :=
  ((List.range i).filter (fun j => canais rng j = canais rng i)).length

/-- Lines 148-151, correlation pass 4: the age is overwritten by a fresh
draw from normal(30 + 8·rank(channel), 5), clipped to [18, 85] and then
`astype(int)`. -/
def idade (rng : Rng) (i : ℕ) : ℤ :=
  truncQ (clipQ (rng.normal (30 + 8 * (canalIdx (canais rng i) : ℚ)) 5 (occAt rng i)) 18 85)

/-- Lines 154-155, correlation pass 5: product count incremented by
`(tempo_cliente_meses / 120).astype(int)`, then re-clipped to [1, 8]. -/
def num_produtos (rng : Rng) (i : ℕ) : ℤ :=
  clipI (num_produtos0 rng i + truncQ ((tempo_cliente rng i : ℚ) / 120)) 1 8

/-- Line 158: `base_receita = np.random.lognormal(3, 1, n) * 10`. -/
def base_receita1 (rng : Rng) (i : ℕ) : ℚ := rng.lognormal 3 1 i * 10

/-- Lines 159-161: revenue scaled by `1 + i * 0.5` per segment. -/
def base_receita2 (rng : Rng) (i : ℕ) : ℚ :=
  base_receita1 rng i * (1 + (segIdx (segmentos rng i) : ℚ) * 0.5)

/-- Line 162: revenue scaled by `1 + num_produtos * 0.2` (the product
count after pass 5). -/
def base_receita3 (rng : Rng) (i : ℕ) : ℚ :=
  base_receita2 rng i * (1 + (num_produtos rng i : ℚ) * 0.2)

/-- Line 163: plus `valor_transacoes_mensais * 0.01` (the transactions
column after pass 3). -/
def base_receita4 (rng : Rng) (i : ℕ) : ℚ :=
  base_receita3 rng i + valor_transacoes rng i * 0.01

/-- Line 164: active rows (and only they) are scaled by 1.5. -/
def base_receita5 (rng : Rng) (i : ℕ) : ℚ :=
  if ativo rng i then base_receita4 rng i * 1.5 else base_receita4 rng i

/-- Line 165: `df['receita_mensal'] = base_receita.round(2)`. -/
def receita_mensal (rng : Rng) (i : ℕ) : ℚ := round2 (base_receita5 rng i)

/-- Lines 168-174: the per-channel unit cost dictionary `custos_base`. -/
def custos_base : Canal → ℚ
  | .app => 0.5
  | .internetBanking => 1.0
  | .caixaEletronico => 3.0
  | .centralTelefonica => 7.0
  | .agencia => 15.0

/-- Lines 175-179: service cost, unit cost of the row's channel times the
contact frequency, rounded to 2 decimals.  (The `np.zeros` initialisation
is dead: every row's channel is one of the five dictionary keys.) -/
def custo_atendimento_mensal (rng : Rng) (i : ℕ) : ℚ :=
  round2 (custos_base (canais rng i) * (freq_contatos rng i : ℚ))

/-- Line 182: profitability, `(receita - custo).round(2)`. -/
def rentabilidade_mensal (rng : Rng) (i : ℕ) : ℚ :=
  round2 (receita_mensal rng i - custo_atendimento_mensal rng i)

/-- One row of the returned DataFrame, with the 14 columns of the final
table (lines 116-128 plus the derived columns of lines 165, 179, 182). -/
structure Row where
  id_cliente : ℤ
  idade : ℤ
  saldo_conta : ℚ
  segmento : Segmento
  tempo_cliente_meses : ℤ
  num_produtos : ℤ
  canal_preferido : Canal
  satisfacao : ℚ
  cliente_ativo : Bool
  valor_transacoes_mensais : ℚ
  freq_contatos_mensais : ℕ
  receita_mensal : ℚ
  custo_atendimento_mensal : ℚ
  rentabilidade_mensal : ℚ
deriving DecidableEq, Repr

instance : Inhabited Row :=
  ⟨{ id_cliente := 0, idade := 0, saldo_conta := 0, segmento := .varejo,
     tempo_cliente_meses := 0, num_produtos := 0, canal_preferido := .app,
     satisfacao := 0, cliente_ativo := false, valor_transacoes_mensais := 0,
     freq_contatos_mensais := 0, receita_mensal := 0,
     custo_atendimento_mensal := 0, rentabilidade_mensal := 0 }⟩

/-- Row `i` of the table returned on line 184: each column evaluated
after every correlation pass and derivation. -/
def mkRowAt (rng : Rng) (i : ℕ) : Row where
  id_cliente := ids_clientes i
  idade := idade rng i
  saldo_conta := saldo_conta rng i
  segmento := segmentos rng i
  tempo_cliente_meses := tempo_cliente rng i
  num_produtos := num_produtos rng i
  canal_preferido := canais rng i
  satisfacao := satisfacao rng i
  cliente_ativo := ativo rng i
  valor_transacoes_mensais := valor_transacoes rng i
  freq_contatos_mensais := freq_contatos rng i
  receita_mensal := receita_mensal rng i
  custo_atendimento_mensal := custo_atendimento_mensal rng i
  rentabilidade_mensal := rentabilidade_mensal rng i

/-- The full table produced from a given pseudo-random source. -/
def tableOf (rng : Rng) (n : ℕ) : List Row :=
  (List.range n).map (mkRowAt rng)

/-- The message of the `ValueError` NumPy raises when a batched draw such
as `np.random.normal(42, 15, n)` (line 78) receives a negative size. -/
def errNegDim : String := "ValueError: negative dimensions are not allowed"

/-- The body of `gerar_dados` after the seed has been set: Python raises
at the first batched draw when `n_linhas` is negative (no table is
produced), and otherwise builds the full table; `n_linhas = 0` yields an
empty DataFrame without error. -/
def gerarDadosWith (rng : Rng) (n_linhas : ℤ) : Except String (List Row) :=
  if n_linhas < 0 then Except.error errNegDim
  else Except.ok (tableOf rng n_linhas.toNat)

/-- A concrete 64-bit linear congruential step, standing in for NumPy's
global Mersenne-twister state transition. -/
def lcg (s : ℕ) : ℕ := (6364136223846793005 * s + 1442695040888963407) % 18446744073709551616

/-- The raw word stream of the seeded generator. -/
def lcgStream (seed : ℕ) : ℕ → ℕ
  | 0 => lcg seed
  | i + 1 => lcg (lcgStream seed i)

/-- A pseudo-uniform rational in [0, 1) from a raw word. -/
def unitQ (x : ℕ) : ℚ := ((x % 1000 : ℕ) : ℚ) / 1000

/-- Segment from a residue, in the source's label order. -/
def segOfNat : ℕ → Segmento
  | 0 => .varejo
  | 1 => .premium
  | 2 => .altaRenda
  | _ => .priv

/-- Channel from a residue, in the source's label order. -/
def canalOfNat : ℕ → Canal
  | 0 => .app
  | 1 => .internetBanking
  | 2 => .agencia
  | 3 => .centralTelefonica
  | _ => .caixaEletronico

/-- The deterministic draw stream fixed by a seed: a concrete executable
stand-in for NumPy's seeded global generator.  Its exact values are not
those of the Mersenne twister (the spec notes bit-level parity is not
portable); every table-level theorem below is proved for an arbitrary
`Rng`, so nothing depends on these particular values. -/
def rngOfSeed (seed : ℕ) : Rng where
  normal := fun m s i => m + s * (unitQ (lcgStream seed (9 * i)) - 1/2)
  exponential := fun s i => s * unitQ (lcgStream seed (9 * i + 1))
  segChoice := fun i => segOfNat (lcgStream seed (9 * i + 2) % 4)
  lognormal := fun m s i => 1 + m + s * unitQ (lcgStream seed (9 * i + 3))
  negativeBinomial := fun _ _ i => lcgStream seed (9 * i + 4) % 10
  canalChoice := fun i => canalOfNat (lcgStream seed (9 * i + 5) % 5)
  beta := fun _ _ i => unitQ (lcgStream seed (9 * i + 6))
  boolChoice := fun i => lcgStream seed (9 * i + 7) % 100 < 85
  poisson := fun _ i => lcgStream seed (9 * i + 8) % 8

/-- Line 68-69: `np.random.seed(42)` — the ambient global random state is
discarded and replaced by the state determined by the seed. -/
def np_random_seed (seed : ℕ) (_g : Rng) : Rng := rngOfSeed seed

/-- `gerar_dados` (lines 56-184): receives the ambient NumPy global
random state, resets it with seed 42, and generates the table. -/
def gerar_dados (g : Rng) (n_linhas : ℤ) : Except String (List Row) :=
  gerarDadosWith (np_random_seed 42 g) n_linhas

/-! ### Basic lemmas about the numeric primitives -/

theorem rhe_intCast (z : ℤ) : rhe (z : ℚ) = z := by
  unfold rhe
  rw [Int.floor_intCast]
  norm_num

theorem rhe_nonneg (q : ℚ) (h : 0 ≤ q) : 0 ≤ rhe q := by
  have hf : (0 : ℤ) ≤ ⌊q⌋ := Int.floor_nonneg.mpr h
  unfold rhe
  split
  · exact hf
  · split
    · omega
    · split
      · exact hf
      · omega

theorem round2_zero : round2 0 = 0 := by
  unfold round2
  norm_num
  have : rhe ((0 : ℤ) : ℚ) = 0 := rhe_intCast 0
  simpa using this

theorem round2_nonneg (q : ℚ) (h : 0 ≤ q) : 0 ≤ round2 q := by
  unfold round2
  have : (0 : ℤ) ≤ rhe (q * 100) := rhe_nonneg _ (by positivity)
  positivity

theorem round2_round2 (q : ℚ) : round2 (round2 q) = round2 q := by
  unfold round2
  have h : (rhe (q * 100) : ℚ) / 100 * 100 = ((rhe (q * 100) : ℚ)) := by
    field_simp
  rw [h, rhe_intCast]

theorem clipQ_mem (x lo hi : ℚ) (h : lo ≤ hi) :
    lo ≤ clipQ x lo hi ∧ clipQ x lo hi ≤ hi :=
  ⟨le_min (le_max_right x lo) h, min_le_right _ _⟩

theorem clipI_mem (x lo hi : ℤ) (h : lo ≤ hi) :
    lo ≤ clipI x lo hi ∧ clipI x lo hi ≤ hi :=
  ⟨le_min (le_max_right x lo) h, min_le_right _ _⟩

theorem truncQ_mem (lo hi : ℤ) (q : ℚ) (h0 : 0 ≤ lo)
    (hl : (lo : ℚ) ≤ q) (hh : q ≤ (hi : ℚ)) :
    lo ≤ truncQ q ∧ truncQ q ≤ hi := by
  have hq : 0 ≤ q := le_trans (by exact_mod_cast h0) hl
  unfold truncQ
  rw [if_pos hq]
  refine ⟨Int.le_floor.mpr hl, ?_⟩
  calc ⌊q⌋ ≤ ⌊(hi : ℚ)⌋ := Int.floor_mono hh
    _ = hi := Int.floor_intCast hi

theorem tableOf_length (rng : Rng) (n : ℕ) : (tableOf rng n).length = n := by
  simp [tableOf]

theorem mem_tableOf {rng : Rng} {n : ℕ} {r : Row} :
    r ∈ tableOf rng n ↔ ∃ i, i < n ∧ r = mkRowAt rng i := by
  simp [tableOf, List.mem_map, List.mem_range, eq_comm]

theorem tableOf_getD (rng : Rng) (n i : ℕ) (h : i < n) :
    (tableOf rng n).getD i default = mkRowAt rng i := by
  unfold tableOf
  rw [List.getD_eq_getElem?_getD, List.getElem?_map, List.getElem?_range h]
  rfl

/-! ### Concrete pseudo-random sources used to instantiate witnesses -/

/-- A simple concrete draw source (constant draws) used only to witness
the universally quantified theorems at concrete inputs. -/
def cRng : Rng where
  normal := fun m _ _ => m
  exponential := fun _ _ => 250.155
  segChoice := fun _ => Segmento.varejo
  lognormal := fun _ _ _ => 55.75
  negativeBinomial := fun _ _ _ => 2
  canalChoice := fun _ => Canal.app
  beta := fun _ _ _ => 1/2
  boolChoice := fun _ => true
  poisson := fun _ _ => 3

/-- Variant of `cRng` whose Poisson draws are 0 (a customer who never
contacts the bank). -/
def cRngZero : Rng := { cRng with poisson := fun _ _ => 0 }

/-- Variant of `cRng` whose balance draw is 0.01: after rounding and the
Varejo 1.5 scaling the balance is 0.015, off the 2-decimal grid. -/
def cRngSaldo : Rng :=
  { cRng with exponential := fun s _ => if s = 10000 then 0.01 else 0 }

/-! ### The claims -/

/-- C1.  Determinism: for every record count, two calls of `gerar_dados`
with the same count yield identical tables whatever the ambient global
random state is, because `np.random.seed(42)` (line 68) replaces that
state before any draw. -/
theorem gerar_dados_deterministic (g1 g2 : Rng) (n : ℤ) :
    gerar_dados g1 n = gerar_dados g2 n := rfl

/-- C2, counterexample.  The claim says every `record_count ≤ 0` is
rejected with an invalid-argument error; but `gerar_dados` performs no
validation, and at `n_linhas = 0` every NumPy batch accepts size 0, so
the call returns an empty table without any error. -/
theorem gerar_dados_zero_returns_empty_ok :
    (0 : ℤ) ≤ 0 ∧ gerar_dados cRng 0 = Except.ok [] := ⟨le_refl 0, rfl⟩

/-- C2, amended.  For every strictly negative record count the generator
fails with NumPy's invalid-argument `ValueError` raised by the first
batched draw, and no table is produced; a zero record count is accepted
and yields an empty table. -/
theorem gerar_dados_negative_error (g : Rng) (n : ℤ) (h : n < 0) :
    gerar_dados g n = Except.error errNegDim := by
  unfold gerar_dados gerarDadosWith
  rw [if_pos h]

theorem gerar_dados_negative_error_witness :
    (-1 : ℤ) < 0 ∧ gerar_dados cRng (-1) = Except.error errNegDim :=
  ⟨by norm_num, gerar_dados_negative_error cRng (-1) (by norm_num)⟩

/-- C3.  Bounds invariant: every row of the returned table (i.e. after
every correlation-injection pass) satisfies 18 ≤ idade ≤ 85,
0 ≤ saldo_conta, 1 ≤ tempo_cliente_meses ≤ 480, 1 ≤ num_produtos ≤ 8,
0 ≤ satisfacao ≤ 100 and 0 ≤ freq_contatos_mensais ≤ 30 — for every
possible pseudo-random stream. -/
theorem tableOf_bounds (rng : Rng) (n : ℕ) (r : Row) (hr : r ∈ tableOf rng n) :
    18 ≤ r.idade ∧ r.idade ≤ 85 ∧ 0 ≤ r.saldo_conta ∧
    1 ≤ r.tempo_cliente_meses ∧ r.tempo_cliente_meses ≤ 480 ∧
    1 ≤ r.num_produtos ∧ r.num_produtos ≤ 8 ∧
    0 ≤ r.satisfacao ∧ r.satisfacao ≤ 100 ∧
    0 ≤ r.freq_contatos_mensais ∧ r.freq_contatos_mensais ≤ 30 := by
  obtain ⟨i, hi, rfl⟩ := mem_tableOf.mp hr
  simp only [mkRowAt]
  have hid : 18 ≤ idade rng i ∧ idade rng i ≤ 85 := by
    unfold idade
    have hc := clipQ_mem (rng.normal (30 + 8 * (canalIdx (canais rng i) : ℚ)) 5 (occAt rng i))
      18 85 (by norm_num)
    exact truncQ_mem 18 85 _ (by norm_num) (by exact_mod_cast hc.1) (by exact_mod_cast hc.2)
  have hs : 0 ≤ saldo_conta rng i := by
    unfold saldo_conta saldo_df
    have h0 : (0 : ℚ) ≤ round2 (saldos rng i) := by
      refine round2_nonneg _ ?_
      exact (clipQ_mem (rng.exponential 10000 i) 0 500000 (by norm_num)).1
    have h1 : (0 : ℚ) ≤ (segIdx (segmentos rng i) : ℚ) + 1 := by positivity
    have := mul_nonneg (mul_nonneg h0 h1) (by norm_num : (0:ℚ) ≤ 1.5)
    exact this
  have ht := clipI_mem (truncQ ((rng.lognormal 3.5 1 i : ℚ))) 1 480 (by norm_num)
  have hp := clipI_mem (num_produtos0 rng i + truncQ ((tempo_cliente rng i : ℚ) / 120))
    1 8 (by norm_num)
  have hsat := clipQ_mem
    (satisfacao_df rng i * (1 + (segIdx (segmentos rng i) : ℚ) * 0.05)) 0 100 (by norm_num)
  have hf : freq_contatos rng i ≤ 30 := min_le_right _ _
  exact ⟨hid.1, hid.2, hs, ht.1, ht.2, hp.1, hp.2, hsat.1, hsat.2, Nat.zero_le _, hf⟩

theorem tableOf_bounds_witness :
    mkRowAt cRng 0 ∈ tableOf cRng 1 ∧
    (18 ≤ (mkRowAt cRng 0).idade ∧ (mkRowAt cRng 0).idade ≤ 85 ∧
     0 ≤ (mkRowAt cRng 0).saldo_conta ∧
     1 ≤ (mkRowAt cRng 0).tempo_cliente_meses ∧
     (mkRowAt cRng 0).tempo_cliente_meses ≤ 480 ∧
     1 ≤ (mkRowAt cRng 0).num_produtos ∧ (mkRowAt cRng 0).num_produtos ≤ 8 ∧
     0 ≤ (mkRowAt cRng 0).satisfacao ∧ (mkRowAt cRng 0).satisfacao ≤ 100 ∧
     0 ≤ (mkRowAt cRng 0).freq_contatos_mensais ∧
     (mkRowAt cRng 0).freq_contatos_mensais ≤ 30) :=
  ⟨mem_tableOf.mpr ⟨0, by norm_num, rfl⟩,
   tableOf_bounds cRng 1 _ (mem_tableOf.mpr ⟨0, by norm_num, rfl⟩)⟩

/-- C4.  Profitability identity: in every row of the table,
`rentabilidade_mensal = round2 (receita_mensal - custo_atendimento_mensal)`,
the difference of the two already-derived row fields. -/
theorem rentabilidade_identity (rng : Rng) (n : ℕ) (r : Row)
    (hr : r ∈ tableOf rng n) :
    r.rentabilidade_mensal =
      round2 (r.receita_mensal - r.custo_atendimento_mensal) := by
  obtain ⟨i, hi, rfl⟩ := mem_tableOf.mp hr
  rfl

theorem rentabilidade_identity_witness :
    mkRowAt cRng 0 ∈ tableOf cRng 1 ∧
    (mkRowAt cRng 0).rentabilidade_mensal =
      round2 ((mkRowAt cRng 0).receita_mensal -
        (mkRowAt cRng 0).custo_atendimento_mensal) :=
  ⟨mem_tableOf.mpr ⟨0, by norm_num, rfl⟩,
   rentabilidade_identity cRng 1 _ (mem_tableOf.mpr ⟨0, by norm_num, rfl⟩)⟩

/-- C5.  Cost-table correctness: in every row,
`custo_atendimento_mensal = round2 (unit_cost(channel) · freq)` with the
fixed unit-cost table App 0.5, Internet Banking 1.0, Caixa Eletrônico 3.0,
Central Telefônica 7.0, Agência 15.0. -/
theorem custo_table_correct (rng : Rng) (n : ℕ) (r : Row)
    (hr : r ∈ tableOf rng n) :
    r.custo_atendimento_mensal =
      round2 (custos_base r.canal_preferido * (r.freq_contatos_mensais : ℚ)) ∧
    custos_base Canal.app = 0.5 ∧ custos_base Canal.internetBanking = 1.0 ∧
    custos_base Canal.caixaEletronico = 3.0 ∧
    custos_base Canal.centralTelefonica = 7.0 ∧
    custos_base Canal.agencia = 15.0 := by
  obtain ⟨i, hi, rfl⟩ := mem_tableOf.mp hr
  exact ⟨rfl, rfl, rfl, rfl, rfl, rfl⟩

theorem custo_table_correct_witness :
    mkRowAt cRng 0 ∈ tableOf cRng 1 ∧
    ((mkRowAt cRng 0).custo_atendimento_mensal =
      round2 (custos_base (mkRowAt cRng 0).canal_preferido *
        ((mkRowAt cRng 0).freq_contatos_mensais : ℚ)) ∧
     custos_base Canal.app = 0.5 ∧ custos_base Canal.internetBanking = 1.0 ∧
     custos_base Canal.caixaEletronico = 3.0 ∧
     custos_base Canal.centralTelefonica = 7.0 ∧
     custos_base Canal.agencia = 15.0) :=
  ⟨mem_tableOf.mpr ⟨0, by norm_num, rfl⟩,
   custo_table_correct cRng 1 _ (mem_tableOf.mpr ⟨0, by norm_num, rfl⟩)⟩

/-- C6.  Cardinality: for every positive record count the generator
returns exactly that many rows, and the `id_cliente` column is exactly
the sequential duplicate-free list 1..N. -/
theorem gerar_dados_cardinality (g : Rng) (n : ℤ) (h : 0 < n) :
    ∃ rows, gerar_dados g n = Except.ok rows ∧
      (rows.length : ℤ) = n ∧
      rows.map Row.id_cliente = (List.range n.toNat).map (fun i : ℕ => (i : ℤ) + 1) ∧
      (rows.map Row.id_cliente).Nodup := by
  refine ⟨tableOf (rngOfSeed 42) n.toNat, ?_, ?_, ?_, ?_⟩
  · unfold gerar_dados gerarDadosWith np_random_seed
    rw [if_neg (by omega : ¬ n < 0)]
  · rw [tableOf_length]
    exact Int.toNat_of_nonneg h.le
  · unfold tableOf
    rw [List.map_map]
    rfl
  · have he : (tableOf (rngOfSeed 42) n.toNat).map Row.id_cliente =
        (List.range n.toNat).map (fun i : ℕ => (i : ℤ) + 1) := by
      unfold tableOf
      rw [List.map_map]
      rfl
    rw [he]
    refine List.Nodup.map ?_ (List.nodup_range n.toNat)
    intro a b hab
    have hab2 : (a : ℤ) + 1 = (b : ℤ) + 1 := hab
    omega

theorem gerar_dados_cardinality_witness :
    (0 : ℤ) < 2 ∧
    ∃ rows, gerar_dados cRng 2 = Except.ok rows ∧
      (rows.length : ℤ) = 2 ∧
      rows.map Row.id_cliente = (List.range (2 : ℤ).toNat).map (fun i : ℕ => (i : ℤ) + 1) ∧
      (rows.map Row.id_cliente).Nodup :=
  ⟨by norm_num, gerar_dados_cardinality cRng 2 (by norm_num)⟩

/-- C7.  Revenue derivation: every row's `receita_mensal` is the
log-normal(3,1) draw times 10, scaled by `1 + rank·0.5` for the row's
segment, then by `1 + num_produtos·0.2`, then incremented by
`0.01·valor_transacoes_mensais`, then multiplied by 1.5 for active rows
only, and finally rounded to 2 decimals — in exactly this order. -/
theorem receita_derivation_order (rng : Rng) (n i : ℕ) (h : i < n)
    (r : Row) (hr : r = (tableOf rng n).getD i default) :
    r.receita_mensal =
      round2 (if r.cliente_ativo then
          (rng.lognormal 3 1 i * 10 * (1 + (segIdx r.segmento : ℚ) * 0.5)
            * (1 + (r.num_produtos : ℚ) * 0.2)
            + r.valor_transacoes_mensais * 0.01) * 1.5
        else
          rng.lognormal 3 1 i * 10 * (1 + (segIdx r.segmento : ℚ) * 0.5)
            * (1 + (r.num_produtos : ℚ) * 0.2)
            + r.valor_transacoes_mensais * 0.01) := by
  subst hr
  rw [tableOf_getD rng n i h]
  rfl

theorem receita_derivation_order_witness :
    0 < 1 ∧
    ((tableOf cRng 1).getD 0 default).receita_mensal =
      round2 (if ((tableOf cRng 1).getD 0 default).cliente_ativo then
          (cRng.lognormal 3 1 0 * 10 *
              (1 + (segIdx ((tableOf cRng 1).getD 0 default).segmento : ℚ) * 0.5)
            * (1 + (((tableOf cRng 1).getD 0 default).num_produtos : ℚ) * 0.2)
            + ((tableOf cRng 1).getD 0 default).valor_transacoes_mensais * 0.01) * 1.5
        else
          cRng.lognormal 3 1 0 * 10 *
              (1 + (segIdx ((tableOf cRng 1).getD 0 default).segmento : ℚ) * 0.5)
            * (1 + (((tableOf cRng 1).getD 0 default).num_produtos : ℚ) * 0.2)
            + ((tableOf cRng 1).getD 0 default).valor_transacoes_mensais * 0.01) :=
  ⟨by norm_num, receita_derivation_order cRng 1 0 (by norm_num) _ rfl⟩

/-- Replace the draws of the one normal batch with parameters `(m, s)` by
`f`, leaving every other draw of the source untouched. -/
def overrideNormal (m s : ℚ) (f : ℕ → ℚ) (rng : Rng) : Rng :=
  { rng with normal := fun m2 s2 i => if m2 = m ∧ s2 = s then f i else rng.normal m2 s2 i }

theorem overrideNormal_apply_ne (m s m2 s2 : ℚ) (f : ℕ → ℚ) (rng : Rng)
    (i : ℕ) (h : ¬(m2 = m ∧ s2 = s)) :
    (overrideNormal m s f rng).normal m2 s2 i = rng.normal m2 s2 i := by
  unfold overrideNormal
  simp only
  rw [if_neg h]

/-- C8.  Age overwrite by channel: (i) every row's final `idade` is the
truncation of the clip to [18, 85] of a fresh normal draw whose mean is
`30 + 8·rank(channel)` and whose standard deviation is 5; (ii) replacing
the entire initial-age batch `normal(42, 15, ·)` by any other values
leaves the returned table unchanged — the initial draw is overwritten,
not blended, and never appears in the output; (iii) the per-channel means
are App 30, Internet Banking 38, Caixa Eletrônico 46, Central Telefônica
54, Agência 62. -/
theorem idade_overwrite_by_canal :
    (∀ (rng : Rng) (n i : ℕ), i < n →
      ((tableOf rng n).getD i default).idade =
        truncQ (clipQ (rng.normal
          (30 + 8 * (canalIdx (((tableOf rng n).getD i default).canal_preferido) : ℚ))
          5 (occAt rng i)) 18 85)) ∧
    (∀ (rng : Rng) (f : ℕ → ℚ) (n : ℕ),
      tableOf (overrideNormal 42 15 f rng) n = tableOf rng n) ∧
    (30 + 8 * (canalIdx Canal.app : ℚ) = 30 ∧
     30 + 8 * (canalIdx Canal.internetBanking : ℚ) = 38 ∧
     30 + 8 * (canalIdx Canal.caixaEletronico : ℚ) = 46 ∧
     30 + 8 * (canalIdx Canal.centralTelefonica : ℚ) = 54 ∧
     30 + 8 * (canalIdx Canal.agencia : ℚ) = 62) := by
  refine ⟨?_, ?_, ?_⟩
  · intro rng n i h
    rw [tableOf_getD rng n i h]
    rfl
  · intro rng f n
    unfold tableOf
    refine List.map_congr_left ?_
    intro i _
    have hid : idade (overrideNormal 42 15 f rng) i = idade rng i := by
      unfold idade
      have hcan : canais (overrideNormal 42 15 f rng) i = canais rng i := rfl
      have hocc : occAt (overrideNormal 42 15 f rng) i = occAt rng i := rfl
      rw [hcan, hocc, overrideNormal_apply_ne]
      rintro ⟨-, h5⟩
      norm_num at h5
    unfold mkRowAt
    rw [hid]
    rfl
  · norm_num [canalIdx]

theorem idade_overwrite_by_canal_witness :
    0 < 1 ∧
    ((tableOf cRng 1).getD 0 default).idade =
      truncQ (clipQ (cRng.normal
        (30 + 8 * (canalIdx (((tableOf cRng 1).getD 0 default).canal_preferido) : ℚ))
        5 (occAt cRng 0)) 18 85) :=
  ⟨by norm_num, idade_overwrite_by_canal.1 cRng 1 0 (by norm_num)⟩

/-- C9.  Zero-contact identity: a row whose monthly contact frequency is
zero has service cost exactly 0, and its profitability equals its
revenue. -/
theorem zero_contact_identity (rng : Rng) (n : ℕ) (r : Row)
    (hr : r ∈ tableOf rng n) (h0 : r.freq_contatos_mensais = 0) :
    r.custo_atendimento_mensal = 0 ∧
    r.rentabilidade_mensal = r.receita_mensal := by
  obtain ⟨i, hi, rfl⟩ := mem_tableOf.mp hr
  simp only [mkRowAt] at h0 ⊢
  have hfz : ((freq_contatos rng i : ℚ)) = 0 := by exact_mod_cast h0
  have hc : custo_atendimento_mensal rng i = 0 := by
    unfold custo_atendimento_mensal
    rw [hfz, mul_zero, round2_zero]
  refine ⟨hc, ?_⟩
  unfold rentabilidade_mensal
  rw [hc, sub_zero]
  unfold receita_mensal
  exact round2_round2 _

theorem zero_contact_identity_witness :
    mkRowAt cRngZero 0 ∈ tableOf cRngZero 1 ∧
    (mkRowAt cRngZero 0).freq_contatos_mensais = 0 ∧
    ((mkRowAt cRngZero 0).custo_atendimento_mensal = 0 ∧
     (mkRowAt cRngZero 0).rentabilidade_mensal = (mkRowAt cRngZero 0).receita_mensal) :=
  ⟨mem_tableOf.mpr ⟨0, by norm_num, rfl⟩, rfl,
   zero_contact_identity cRngZero 1 _ (mem_tableOf.mpr ⟨0, by norm_num, rfl⟩) rfl⟩

/-- C10.  Balance rounding order: (i) every row's final balance is the
raw exponential draw clipped to [0, 500000], rounded to 2 decimals, and
only then multiplied by the segment factor `(rank + 1)·1.5`; (ii) those
factors are Varejo 1.5, Premium 3.0, Alta Renda 4.5, Private 6.0;
(iii) consequently the output balance can land off the 2-decimal grid, as
the concrete source `cRngSaldo` shows (draw 0.01, Varejo: balance
0.015). -/
theorem saldo_rounding_before_scaling :
    (∀ (rng : Rng) (n i : ℕ), i < n →
      ((tableOf rng n).getD i default).saldo_conta =
        round2 (clipQ (rng.exponential 10000 i) 0 500000) *
          ((segIdx (((tableOf rng n).getD i default).segmento) : ℚ) + 1) * 1.5) ∧
    (((segIdx Segmento.varejo : ℚ) + 1) * 1.5 = 1.5 ∧
     ((segIdx Segmento.premium : ℚ) + 1) * 1.5 = 3.0 ∧
     ((segIdx Segmento.altaRenda : ℚ) + 1) * 1.5 = 4.5 ∧
     ((segIdx Segmento.priv : ℚ) + 1) * 1.5 = 6.0) ∧
    ¬ ∃ z : ℤ, ((tableOf cRngSaldo 1).getD 0 default).saldo_conta * 100 = (z : ℚ) := by
  refine ⟨?_, ?_, ?_⟩
  · intro rng n i h
    rw [tableOf_getD rng n i h]
    rfl
  · norm_num [segIdx]
  · have eexp : cRngSaldo.exponential 10000 0 = 1/100 := by
      show (if (10000 : ℚ) = 10000 then (0.01 : ℚ) else 0) = 1/100
      norm_num
    have e1 : saldos cRngSaldo 0 = 1/100 := by
      unfold saldos
      rw [eexp]
      unfold clipQ
      rw [max_eq_left (by norm_num), min_eq_left (by norm_num)]
    have e2 : round2 (1/100) = 1/100 := by
      have h100 : (1 : ℚ)/100 * 100 = ((1 : ℤ) : ℚ) := by norm_num
      unfold round2
      rw [h100, rhe_intCast]
      norm_num
    have hval : ((tableOf cRngSaldo 1).getD 0 default).saldo_conta = 3/200 := by
      rw [tableOf_getD cRngSaldo 1 0 (by norm_num)]
      show saldo_conta cRngSaldo 0 = 3/200
      unfold saldo_conta saldo_df
      rw [e1, e2]
      show (1 : ℚ)/100 * ((segIdx Segmento.varejo : ℚ) + 1) * 1.5 = 3/200
      norm_num [segIdx]
    rintro ⟨z, hz⟩
    rw [hval] at hz
    have h32 : (3 : ℚ) = 2 * (z : ℚ) := by linarith
    have h32z : (3 : ℤ) = 2 * z := by exact_mod_cast h32
    omega

theorem saldo_rounding_before_scaling_witness :
    0 < 1 ∧
    ((tableOf cRng 1).getD 0 default).saldo_conta =
      round2 (clipQ (cRng.exponential 10000 0) 0 500000) *
        ((segIdx (((tableOf cRng 1).getD 0 default).segmento) : ℚ) + 1) * 1.5 :=
  ⟨by norm_num, saldo_rounding_before_scaling.1 cRng 1 0 (by norm_num)⟩
